import Mathlib

/-!
Verification of the 3scale Istio adapter's authorization pipeline
(`pkg/threescale/threescale.go`) against its specification.

The Go code is shallowly embedded: pure helpers become Lean functions,
the external collaborators (regexp engine, HTTP clients, the remote
3scale system and backend) become explicit function parameters, and the
calls the handler makes to them are recorded in an event trace so that
"no network call happened" is a statement about the trace.
-/

namespace Threescale

/-! ## Status model (istio.io/istio/mixer/pkg/status helpers over rpc.Status) -/

/-- The subset of gRPC status codes used by the adapter. -/
inductive StatusCode where
  | ok
  | invalidArgument
  | permissionDenied
  | unavailable
  | unknown
  | internal
deriving DecidableEq, Repr

/-- rpc.Status as used here: a code plus a human-readable message. -/
structure RpcStatus where
  code : StatusCode
  message : String
deriving DecidableEq, Repr

/-- status.OK -/
def statusOK : RpcStatus := ⟨StatusCode.ok, ""⟩

/-- status.WithInvalidArgument -/
def withInvalidArgument (m : String) : RpcStatus := ⟨StatusCode.invalidArgument, m⟩

/-- status.WithPermissionDenied -/
def withPermissionDenied (m : String) : RpcStatus := ⟨StatusCode.permissionDenied, m⟩

/-- status.WithUnavailable -/
def withUnavailable (m : String) : RpcStatus := ⟨StatusCode.unavailable, m⟩

/-- status.WithUnknown -/
def withUnknown (m : String) : RpcStatus := ⟨StatusCode.unknown, m⟩

/-- status.WithInternal -/
def withInternal (m : String) : RpcStatus := ⟨StatusCode.internal, m⟩

/-! ## Constants from threescale.go -/

def pathErr : String := "missing request path"

def unauthenticatedErr : String :=
  "no auth credentials provided or provided in invalid location"

/-- Name by which 3scale config describes the oauth OpenID Connect pattern. -/
def openIDTypeIdentifier : String := "oauth"

def AppIDAttributeKey : String := "app_id"

def AppKeyAttributeKey : String := "app_key"

def OIDCAttributeKey : String := "client_id"

/-! ## Request data model (istio authorization template messages) -/

/-- SubjectMsg: `request.Subject` — the User string and the Properties map.
Property values are modelled as the strings `GetStringValue` yields. -/
structure SubjectMsg where
  user : String
  properties : List (String × String)
deriving DecidableEq, Repr

/-- `subject.Properties[k].GetStringValue()`: a missing key (nil value)
yields the empty string, as in Go. -/
def getStringProperty (props : List (String × String)) (k : String) : String :=
  (props.lookup k).getD ""

/-- ActionMsg: `request.Action` — service, method and path. -/
structure ActionMsg where
  service : String
  method : String
  path : String
deriving DecidableEq, Repr

/-- InstanceMsg: `r.Instance` — an optional subject plus the action.
`subject` is an `Option` because `request.Subject` is a nilable pointer. -/
structure InstanceMsg where
  subject : Option SubjectMsg
  action : ActionMsg
deriving DecidableEq, Repr

/-! ## Proxy configuration (3scale-porta-go-client sysC.ProxyConfig, flattened) -/

/-- One mapping rule from `proxyConf.Content.Proxy.ProxyRules`. -/
structure ProxyRule where
  httpMethod : String
  pattern : String
  metricSystemName : String
  delta : Int
deriving DecidableEq, Repr

/-- `sysC.ProxyConfig` flattened to the fields the adapter reads:
`Content.BackendVersion`, `Content.BackendAuthenticationType`,
`Content.BackendAuthenticationValue`, `Content.Proxy.Backend.Endpoint`
and `Content.Proxy.ProxyRules`. -/
structure ProxyConfig where
  backendVersion : String
  backendAuthenticationType : String
  backendAuthenticationValue : String
  backendEndpoint : String
  proxyRules : List ProxyRule
deriving DecidableEq, Repr

/-! ## Metrics map (3scale-go-client api.Metrics)

Go's `api.Metrics` is a `map[string]int` whose `Add(name, v)` adds `v`
to the current value for `name`, inserting `v` when the key is absent
(the accumulate semantics documented by the client library). The map is
modelled as an association list with unique keys. -/

abbrev Metrics := List (String × Int)

/-- `api.Metrics.Add`: accumulate `v` onto the entry for `name`. -/
def Metrics.add : Metrics → String → Int → Metrics
  | [], name, v => [(name, v)]
  | (k, x) :: rest, name, v =>
      if k = name then (k, x + v) :: rest
      else (k, x) :: Metrics.add rest name v

/-- Read a metric value, 0 when absent (Go map read default). -/
def Metrics.get : Metrics → String → Int
  | [], _ => 0
  | (k, x) :: rest, name => if name = k then x else Metrics.get rest name

/-! ## Rule matching (generateMetrics)

`regexp.MatchString(pattern, s)` is external library code; it is
abstracted as a matcher function returning `.error` exactly when the
pattern is a malformed regular expression and `.ok b` otherwise, where
`b` reports whether the pattern finds a match anywhere in `s`
(Go's unanchored search semantics). -/

abbrev RegexMatcher := String → String → Except String Bool

/-- strings.ToUpper as used on HTTP method names (ASCII case map),
written over the character list so that the kernel can evaluate it
(core `String.toUpper` is compiled code). -/
def toUpperStr (s : String) : String := String.mk (s.data.map Char.toUpper)

/-- Whether one proxy rule matches: the pattern compiles and finds a
match in the path (err == nil && match), and the rule's HTTP method
equals the request method after uppercasing both sides. -/
def ruleMatches (ms : RegexMatcher) (path method : String) (pr : ProxyRule) : Bool :=
  match ms pr.pattern path with
  | Except.ok m => m && (toUpperStr pr.httpMethod == toUpperStr method)
  | Except.error _ => false

/-- Loop body of `generateMetrics`: a malformed pattern (err != nil)
leaves the accumulator untouched, a match adds the rule's delta. -/
def genStep (ms : RegexMatcher) (path method : String)
    (metrics : Metrics) (pr : ProxyRule) : Metrics :=
  match ms pr.pattern path with
  | Except.ok m =>
      if m && (toUpperStr pr.httpMethod == toUpperStr method) then
        metrics.add pr.metricSystemName pr.delta
      else metrics
  | Except.error _ => metrics

/-- `generateMetrics(path, method, conf)`: fold the rules in order into
an initially empty metrics map. -/
def generateMetrics (ms : RegexMatcher) (path method : String)
    (conf : ProxyConfig) : Metrics :=
  conf.proxyRules.foldl (genStep ms path method) []

/-! ## Backend request/response (3scale-go-client api / backend connector) -/

/-- api.ClientAuth. `authType` stands for the Go field `Type`
(a Lean keyword). -/
structure ClientAuth where
  authType : String
  value : String
deriving DecidableEq, Repr

/-- api.Params: the credential triple sent to the backend. -/
structure ApiParams where
  appID : String
  appKey : String
  userKey : String
deriving DecidableEq, Repr

/-- backend.Request built by isAuthorized (transaction flattened). -/
structure BackendRequest where
  auth : ClientAuth
  serviceID : String
  metrics : Metrics
  params : ApiParams
deriving DecidableEq, Repr

/-- backend.Response: success flag plus backend-supplied reason. -/
structure BackendResponse where
  success : Bool
  reason : String
deriving DecidableEq, Repr

/-- The backend AuthRep collaborator: yields `(response, error)` exactly
as the Go call does; the error is `some msg` when non-nil. -/
abbrev AuthRepFn := BackendRequest → BackendResponse × Option String

/-! ## Error formatting (rpcStatusErrorHandler) -/

/-- rpcStatusErrorHandler: formats the user-facing message and applies
the status constructor. Returns the status together with the formatted
error string (the Go function returns `(rpc.Status, error)`). With a
non-empty user-facing message the error becomes
`Sprintf("%s %s", msg, errMsg)` where `errMsg` is `"- " ++ err` when an
error is present and empty otherwise; with an empty user-facing message
the incoming error (non-nil at every such call site) is used as is. -/
def rpcStatusErrorHandler (userFacingErrMsg : String)
    (fn : String → RpcStatus) (err : Option String) : RpcStatus × String :=
  if userFacingErrMsg = "" then
    let full := err.getD ""
    (fn full, full)
  else
    let errMsg := match err with
      | some e => "- " ++ e
      | none => ""
    let full := userFacingErrMsg ++ " " ++ errMsg
    (fn full, full)

/-! ## Credential extraction and isAuthorized -/

/-- Lines 161–175 of threescale.go: with a nil subject all three
credentials stay at their zero value ""; otherwise the app identifier
key is forced to the OIDC claim attribute when the backend version is
the OIDC identifier and is the generic app-id attribute otherwise. -/
def extractCredentials (proxyConf : ProxyConfig) (subject : Option SubjectMsg) :
    String × String × String :=
  match subject with
  | none => ("", "", "")
  | some sub =>
      let appIdentifierKey :=
        if proxyConf.backendVersion = openIDTypeIdentifier then
          OIDCAttributeKey
        else
          AppIDAttributeKey
      (getStringProperty sub.properties appIdentifierKey,
       getStringProperty sub.properties AppKeyAttributeKey,
       sub.user)

/-- Outcome of isAuthorized before the backend call: either an early
return with a status (lines 157–185) or the backend request it would
send (lines 187–203). -/
inductive AuthStage where
  | earlyExit (s : RpcStatus)
  | callBackend (req : BackendRequest)
deriving DecidableEq, Repr

/-- The control flow of `isAuthorized` up to (but excluding) the
AuthRep call, with each Go early `return` mapped to `.earlyExit`. -/
def isAuthorizedStaged (ms : RegexMatcher) (svcID : String)
    (request : InstanceMsg) (proxyConf : ProxyConfig) : AuthStage :=
  if request.action.path = "" then
    AuthStage.earlyExit (withInvalidArgument pathErr)
  else
    let creds := extractCredentials proxyConf request.subject
    let appID := creds.1
    let appKey := creds.2.1
    let userKey := creds.2.2
    if appID = "" ∧ userKey = "" then
      AuthStage.earlyExit (withPermissionDenied unauthenticatedErr)
    else
      let metrics := generateMetrics ms request.action.path request.action.method proxyConf
      if metrics.length = 0 then
        AuthStage.earlyExit (withPermissionDenied
          ("no matching mapping rule for request with method "
            ++ request.action.method ++ " and path " ++ request.action.path))
      else
        AuthStage.callBackend
          { auth := { authType := proxyConf.backendAuthenticationType,
                      value := proxyConf.backendAuthenticationValue },
            serviceID := svcID,
            metrics := metrics,
            params := { appID := appID, appKey := appKey, userKey := userKey } }

/-- apiRespConverter: backend error → Unknown with the formatted
message; explicit denial → PermissionDenied with the backend reason;
success → OK. -/
def apiRespConverter (resp : BackendResponse) (e : Option String) : RpcStatus :=
  match e with
  | some msg =>
      (rpcStatusErrorHandler "error calling 3scale backend" withUnknown (some msg)).1
  | none =>
      if !resp.success then withPermissionDenied resp.reason
      else statusOK

/-- isAuthorized: the staged pipeline followed by the AuthRep call and
response conversion. -/
def isAuthorized (ms : RegexMatcher) (authRep : AuthRepFn) (svcID : String)
    (request : InstanceMsg) (proxyConf : ProxyConfig) : RpcStatus :=
  match isAuthorizedStaged ms svcID request proxyConf with
  | AuthStage.earlyExit s => s
  | AuthStage.callBackend req =>
      let r := authRep req
      apiRespConverter r.1 r.2

/-! ## HandleAuthorization -/

/-- config.Params (adapter configuration protobuf). -/
structure Params where
  serviceId : String
  systemUrl : String
  backendUrl : String
  accessToken : String
deriving DecidableEq, Repr

/-- parseConfigParams over the request's adapter config: `none` models a
nil `r.AdapterConfig`; `some (.error _)` a blob `Unmarshal` rejects
(the unmarshaller itself is generated protobuf code, abstracted);
`some (.ok cfg)` a blob decoding to `cfg`. -/
def parseConfigParams (adapterConfig : Option (Except Unit Params)) :
    Except String Params :=
  match adapterConfig with
  | none => Except.error "internal error - adapter config is not available"
  | some (Except.error _) =>
      Except.error "internal error - unable to unmarshal adapter config"
  | some (Except.ok cfg) => Except.ok cfg

/-- v1beta1.CheckResult: status plus cache-validity hints. In the Go
handler both hints start at their zero value (duration 0, use count 0)
and are assigned 0 / -1 only on the code path that reaches
`isAuthorized`. -/
structure CheckResult where
  status : RpcStatus
  validDurationSeconds : Int
  validUseCount : Int
deriving DecidableEq, Repr

/-- Trace of the handler's calls to its collaborators: building the
system HTTP client, fetching the proxy configuration, building the
backend client, and the backend AuthRep call. -/
inductive Event where
  | buildSystemClient (systemUrl : String)
  | fetchProxyConf (cfg : Params)
  | buildBackendClient (backendUrl : String)
  | authRep (req : BackendRequest)
deriving DecidableEq, Repr

/-- The handler's collaborators (client builder, system fetch, backend),
each returning `.error msg` to model a non-nil Go error. -/
structure HandlerEnv where
  buildSystemClient : String → Except String Unit
  getProxyConf : Params → Except String ProxyConfig
  buildBackendClient : String → Except String Unit
  matchString : RegexMatcher
  authRep : AuthRepFn

/-- authorization.HandleAuthorizationRequest: the adapter config blob
(already through the abstract unmarshaller) and `r.Instance`. -/
structure HandleAuthorizationRequest where
  adapterConfig : Option (Except Unit Params)
  inst : InstanceMsg

/-- The events isAuthorized contributes: exactly one AuthRep call when
the staged pipeline reaches the backend, none on an early return. -/
def isAuthorizedEvents (ms : RegexMatcher) (svcID : String)
    (request : InstanceMsg) (proxyConf : ProxyConfig) : List Event :=
  match isAuthorizedStaged ms svcID request proxyConf with
  | AuthStage.earlyExit _ => []
  | AuthStage.callBackend req => [Event.authRep req]

/-- HandleAuthorization from the system-client build onward, after the
service id has been resolved into `cfg` (lines 77–112). Early `goto out`
paths leave the check result's validity hints at their zero values;
only the path reaching isAuthorized sets duration 0 and use count -1. -/
def handleResolved (env : HandlerEnv) (r : HandleAuthorizationRequest)
    (cfg : Params) : CheckResult × List Event :=
  match env.buildSystemClient cfg.systemUrl with
  | Except.error e =>
      (⟨(rpcStatusErrorHandler "error building HTTP client for 3scale system"
          withInvalidArgument (some e)).1, 0, 0⟩,
       [Event.buildSystemClient cfg.systemUrl])
  | Except.ok _ =>
      match env.getProxyConf cfg with
      | Except.error e =>
          (⟨(rpcStatusErrorHandler "currently unable to fetch required data from 3scale system"
              withUnavailable (some e)).1, 0, 0⟩,
           [Event.buildSystemClient cfg.systemUrl, Event.fetchProxyConf cfg])
      | Except.ok proxyConf =>
          let backendURL :=
            if cfg.backendUrl = "" then proxyConf.backendEndpoint else cfg.backendUrl
          match env.buildBackendClient backendURL with
          | Except.error e =>
              (⟨(rpcStatusErrorHandler "error creating 3scale backend client"
                  withInvalidArgument (some e)).1, 0, 0⟩,
               [Event.buildSystemClient cfg.systemUrl, Event.fetchProxyConf cfg,
                Event.buildBackendClient backendURL])
          | Except.ok _ =>
              (⟨isAuthorized env.matchString env.authRep cfg.serviceId r.inst proxyConf,
                 0, -1⟩,
               [Event.buildSystemClient cfg.systemUrl, Event.fetchProxyConf cfg,
                Event.buildBackendClient backendURL]
                 ++ isAuthorizedEvents env.matchString cfg.serviceId r.inst proxyConf)

/-- HandleAuthorization (lines 52–113): parse the adapter config,
resolve the service id (hardcoded in the handler config, else from the
request action; empty in both → InvalidArgument before any collaborator
call), then run the resolved pipeline. -/
def handleAuthorization (env : HandlerEnv) (r : HandleAuthorizationRequest) :
    CheckResult × List Event :=
  match parseConfigParams r.adapterConfig with
  | Except.error e =>
      (⟨(rpcStatusErrorHandler "" withInternal (some e)).1, 0, 0⟩, [])
  | Except.ok cfg =>
      if cfg.serviceId = "" then
        if r.inst.action.service = "" then
          (⟨(rpcStatusErrorHandler "error. No Service ID provided"
              withInvalidArgument none).1, 0, 0⟩, [])
        else
          handleResolved env r { cfg with serviceId := r.inst.action.service }
      else
        handleResolved env r cfg

/-! ## Derived specification-side quantities -/

/-- Sum of the deltas of all rules that match the request and name the
given metric. -/
def sumMatchingDeltas (ms : RegexMatcher) (path method : String)
    (rules : List ProxyRule) (name : String) : Int :=
  ((rules.filter fun pr =>
      ruleMatches ms path method pr && decide (pr.metricSystemName = name)).map
    fun pr => pr.delta).sum

/-! ## Concrete fixtures for closed evaluations -/

/-- A concrete matcher instance: the pattern `"("` is malformed, every
other pattern matches exactly the identical string. -/
def eqMatcher : RegexMatcher := fun pat s =>
  if pat = "(" then Except.error "missing closing paren"
  else Except.ok (decide (pat = s))

def widgetRule : ProxyRule :=
  { httpMethod := "GET", pattern := "/v1/widgets",
    metricSystemName := "hits", delta := 1 }

def widgetRuleLower : ProxyRule :=
  { httpMethod := "get", pattern := "/v1/widgets",
    metricSystemName := "hits", delta := 2 }

def malformedRule : ProxyRule :=
  { httpMethod := "GET", pattern := "(",
    metricSystemName := "hits", delta := 5 }

def sampleConf : ProxyConfig :=
  { backendVersion := "1", backendAuthenticationType := "service_token",
    backendAuthenticationValue := "stok", backendEndpoint := "http://backend",
    proxyRules := [widgetRule, widgetRuleLower, malformedRule] }

def oidcConf : ProxyConfig :=
  { backendVersion := "oauth", backendAuthenticationType := "service_token",
    backendAuthenticationValue := "stok", backendEndpoint := "http://backend",
    proxyRules := [widgetRule] }

/-- A subject carrying both a generic app-id attribute and an OIDC
claim attribute with different values. -/
def dualIDSubject : SubjectMsg :=
  { user := "", properties := [("app_id", "generic-id"), ("client_id", "oidc-id")] }

def appIDSubject : SubjectMsg :=
  { user := "", properties := [("app_id", "abc")] }

def emptySubject : SubjectMsg := { user := "", properties := [] }

def getWidgets : ActionMsg := { service := "", method := "GET", path := "/v1/widgets" }

def postWidgets : ActionMsg := { service := "", method := "POST", path := "/v1/widgets" }

/-- A backend that always authorizes. -/
def okAuthRep : AuthRepFn := fun _ => (⟨true, ""⟩, none)

def sampleEnv : HandlerEnv :=
  { buildSystemClient := fun _ => Except.ok (),
    getProxyConf := fun _ => Except.ok sampleConf,
    buildBackendClient := fun _ => Except.ok (),
    matchString := eqMatcher,
    authRep := okAuthRep }

def sampleParams : Params :=
  { serviceId := "svc", systemUrl := "http://system", backendUrl := "", accessToken := "tok" }

def emptyServiceParams : Params :=
  { serviceId := "", systemUrl := "http://system", backendUrl := "", accessToken := "tok" }

/-- A request whose adapter config decodes to `sampleParams` and whose
instance authenticates and matches a rule — the full happy path. -/
def okReq : HandleAuthorizationRequest :=
  { adapterConfig := some (Except.ok sampleParams),
    inst := { subject := some appIDSubject, action := getWidgets } }

/-- A request with the service id empty in both the adapter config and
the action. -/
def noServiceReq : HandleAuthorizationRequest :=
  { adapterConfig := some (Except.ok emptyServiceParams),
    inst := { subject := none, action := { service := "", method := "GET", path := "/x" } } }

/-- A request supplying the service id only in the action. -/
def requestServiceReq : HandleAuthorizationRequest :=
  { adapterConfig := some (Except.ok emptyServiceParams),
    inst := { subject := some appIDSubject,
              action := { service := "svc2", method := "GET", path := "/v1/widgets" } } }

/-- `emptyServiceParams` after the handler copies the action's service
id into it. -/
def resolvedParams : Params := { emptyServiceParams with serviceId := "svc2" }

/-- A request whose adapter config blob is absent (nil AdapterConfig). -/
def nilConfigReq : HandleAuthorizationRequest :=
  { adapterConfig := none,
    inst := { subject := none, action := getWidgets } }

/-! # Theorems -/

/-! ## Metrics map lemmas -/

theorem genStep_eq (ms : RegexMatcher) (path method : String)
    (m : Metrics) (pr : ProxyRule) :
    genStep ms path method m pr =
      if ruleMatches ms path method pr then m.add pr.metricSystemName pr.delta
      else m := by
  unfold genStep ruleMatches
  cases h : ms pr.pattern path with
  | ok b => cases b <;> simp
  | error e => simp

theorem get_add (m : Metrics) (name : String) (v : Int) (k : String) :
    (m.add name v).get k = if k = name then m.get k + v else m.get k := by
  induction m with
  | nil =>
      by_cases h : k = name <;> simp [Metrics.add, Metrics.get, h]
  | cons hd tl ih =>
      obtain ⟨hk, hv⟩ := hd
      by_cases h1 : hk = name
      · subst h1
        by_cases h2 : k = hk <;> simp [Metrics.add, Metrics.get, h2]
      · by_cases h2 : k = hk
        · subst h2
          have : ¬(k = name) := h1
          simp [Metrics.add, Metrics.get, h1, this]
        · simp [Metrics.add, Metrics.get, h1, h2, ih]

theorem foldl_genStep_get (ms : RegexMatcher) (path method : String)
    (rules : List ProxyRule) (m : Metrics) (k : String) :
    (rules.foldl (genStep ms path method) m).get k =
      m.get k + sumMatchingDeltas ms path method rules k := by
  induction rules generalizing m with
  | nil => simp [sumMatchingDeltas]
  | cons pr rest ih =>
      rw [List.foldl_cons, genStep_eq, ih]
      by_cases hm : ruleMatches ms path method pr
      · rw [if_pos hm, get_add]
        by_cases hk : pr.metricSystemName = k
        · simp [sumMatchingDeltas, List.filter_cons, hm, hk]
          omega
        · have hk2 : ¬(k = pr.metricSystemName) := fun h => hk h.symm
          simp [sumMatchingDeltas, List.filter_cons, hm, hk, hk2]
      · simp [sumMatchingDeltas, List.filter_cons, hm]

theorem foldl_genStep_filter (ms : RegexMatcher) (path method : String)
    (rules : List ProxyRule) (m : Metrics) :
    rules.foldl (genStep ms path method) m =
      (rules.filter fun pr => ruleMatches ms path method pr).foldl
        (fun acc pr => Metrics.add acc pr.metricSystemName pr.delta) m := by
  induction rules generalizing m with
  | nil => rfl
  | cons pr rest ih =>
      rw [List.foldl_cons, genStep_eq, List.filter_cons]
      by_cases hm : ruleMatches ms path method pr <;> simp [hm, ih]

/-- C2: for every request path, method and proxy configuration, the
metric map produced by rule matching assigns to each metric name the sum
of the deltas of all matching rules for that metric — matching rules for
the same metric accumulate rather than overwrite; in particular two
matching rules on `hits` with deltas 1 and 2 yield 3. -/
theorem generateMetrics_accumulates (ms : RegexMatcher) (path method : String)
    (conf : ProxyConfig) (name : String) :
    ((generateMetrics ms path method conf).get name =
        sumMatchingDeltas ms path method conf.proxyRules name) ∧
    (generateMetrics eqMatcher "/v1/widgets" "GET" sampleConf).get "hits" = 3 := by
  constructor
  · unfold generateMetrics
    rw [foldl_genStep_get]
    simp [Metrics.get]
  · decide

/-- C6: a mapping rule contributes its delta iff its pattern is a valid
regular expression finding a match in the request path and its HTTP
method equals the request method after uppercasing both; a malformed
pattern is a non-match for that rule only — the fold runs over exactly
the rules that match, so evaluation continues past a bad pattern. -/
theorem ruleMatch_semantics (ms : RegexMatcher) (path method : String)
    (conf : ProxyConfig) :
    (generateMetrics ms path method conf =
      (conf.proxyRules.filter fun pr => ruleMatches ms path method pr).foldl
        (fun acc pr => Metrics.add acc pr.metricSystemName pr.delta) ([] : Metrics)) ∧
    (∀ pr e, ms pr.pattern path = Except.error e →
      ruleMatches ms path method pr = false) ∧
    (∀ pr b, ms pr.pattern path = Except.ok b →
      ruleMatches ms path method pr = (b && (toUpperStr pr.httpMethod == toUpperStr method))) := by
  refine ⟨?_, ?_, ?_⟩
  · unfold generateMetrics
    exact foldl_genStep_filter ms path method conf.proxyRules []
  · intro pr e h
    simp [ruleMatches, h]
  · intro pr b h
    simp [ruleMatches, h]

/-- Witness for C6 at concrete inputs: the malformed rule is a
non-match, a valid matching pattern reduces to the method comparison,
and the metrics map equals the fold over the matching rules. -/
theorem ruleMatch_semantics_witness :
    ruleMatches eqMatcher "/v1/widgets" "GET" malformedRule = false ∧
    ruleMatches eqMatcher "/v1/widgets" "GET" widgetRuleLower =
      (true && (toUpperStr widgetRuleLower.httpMethod == toUpperStr "GET")) ∧
    generateMetrics eqMatcher "/v1/widgets" "GET" sampleConf =
      (sampleConf.proxyRules.filter
        fun pr => ruleMatches eqMatcher "/v1/widgets" "GET" pr).foldl
        (fun acc pr => Metrics.add acc pr.metricSystemName pr.delta) ([] : Metrics) :=
  ⟨(ruleMatch_semantics eqMatcher "/v1/widgets" "GET" sampleConf).2.1
      malformedRule "missing closing paren" rfl,
   (ruleMatch_semantics eqMatcher "/v1/widgets" "GET" sampleConf).2.2
      widgetRuleLower true rfl,
   (ruleMatch_semantics eqMatcher "/v1/widgets" "GET" sampleConf).1⟩

/-- C1: with an OIDC backend (backend version "oauth") the app
identifier is read from the OIDC claim attribute "client_id" and never
from the generic "app_id" attribute; otherwise it is read from
"app_id"; and the appID sent in any backend request is exactly the one
so extracted. -/
theorem oidc_precedence (proxyConf : ProxyConfig) (sub : SubjectMsg)
    (ms : RegexMatcher) (svcID : String) (request : InstanceMsg) :
    (proxyConf.backendVersion = openIDTypeIdentifier →
      (extractCredentials proxyConf (some sub)).1 =
        getStringProperty sub.properties OIDCAttributeKey) ∧
    (proxyConf.backendVersion ≠ openIDTypeIdentifier →
      (extractCredentials proxyConf (some sub)).1 =
        getStringProperty sub.properties AppIDAttributeKey) ∧
    (∀ req, isAuthorizedStaged ms svcID request proxyConf = AuthStage.callBackend req →
      req.params.appID = (extractCredentials proxyConf request.subject).1) := by
  refine ⟨?_, ?_, ?_⟩
  · intro h
    simp [extractCredentials, h]
  · intro h
    simp [extractCredentials, h]
  · intro req h
    unfold isAuthorizedStaged at h
    dsimp only at h
    split at h
    · exact absurd h (by simp)
    · split at h
      · exact absurd h (by simp)
      · split at h
        · exact absurd h (by simp)
        · cases h
          rfl

/-- The backend request isAuthorized builds for the OIDC fixture. -/
def oidcBackendReq : BackendRequest :=
  { auth := { authType := "service_token", value := "stok" },
    serviceID := "svc",
    metrics := [("hits", 1)],
    params := { appID := "oidc-id", appKey := "", userKey := "" } }

/-- Witness for C1: a subject carrying app_id "generic-id" and
client_id "oidc-id"; under the OIDC config the extracted and sent
identifier is the OIDC claim value, under the non-OIDC config the
generic one. -/
theorem oidc_precedence_witness :
    (extractCredentials oidcConf (some dualIDSubject)).1 =
        getStringProperty dualIDSubject.properties OIDCAttributeKey ∧
    getStringProperty dualIDSubject.properties OIDCAttributeKey = "oidc-id" ∧
    (extractCredentials sampleConf (some dualIDSubject)).1 =
        getStringProperty dualIDSubject.properties AppIDAttributeKey ∧
    getStringProperty dualIDSubject.properties AppIDAttributeKey = "generic-id" ∧
    oidcBackendReq.params.appID =
        (extractCredentials oidcConf (some dualIDSubject)).1 :=
  ⟨(oidc_precedence oidcConf dualIDSubject eqMatcher "svc"
      ⟨some dualIDSubject, getWidgets⟩).1 rfl,
   by decide,
   (oidc_precedence sampleConf dualIDSubject eqMatcher "svc"
      ⟨some dualIDSubject, getWidgets⟩).2.1 (by decide),
   by decide,
   (oidc_precedence oidcConf dualIDSubject eqMatcher "svc"
      ⟨some dualIDSubject, getWidgets⟩).2.2 oidcBackendReq (by decide)⟩

/-- C3: a backend call error yields Unknown with a message naming the
backend call failure; a nil error with success false yields
PermissionDenied carrying the backend reason; success yields OK. -/
theorem apiRespConverter_spec (resp : BackendResponse) (m : String) :
    (apiRespConverter resp (some m) =
      withUnknown ("error calling 3scale backend - " ++ m)) ∧
    (resp.success = false →
      apiRespConverter resp none = withPermissionDenied resp.reason) ∧
    (resp.success = true → apiRespConverter resp none = statusOK) := by
  refine ⟨?_, ?_, ?_⟩
  · show (rpcStatusErrorHandler "error calling 3scale backend" withUnknown (some m)).1 =
      withUnknown ("error calling 3scale backend - " ++ m)
    unfold rpcStatusErrorHandler
    rw [if_neg (by decide)]
    dsimp only
    rw [← String.append_assoc]
    congr 2
  · intro h
    simp [apiRespConverter, h]
  · intro h
    simp [apiRespConverter, h, statusOK]

/-- Witness for C3 at concrete responses: an errored call, an explicit
denial, and a success. -/
theorem apiRespConverter_spec_witness :
    apiRespConverter ⟨true, ""⟩ (some "dial tcp: refused") =
      withUnknown ("error calling 3scale backend - " ++ "dial tcp: refused") ∧
    apiRespConverter ⟨false, "usage limits exceeded"⟩ none =
      withPermissionDenied "usage limits exceeded" ∧
    apiRespConverter ⟨true, ""⟩ none = statusOK :=
  ⟨(apiRespConverter_spec ⟨true, ""⟩ "dial tcp: refused").1,
   (apiRespConverter_spec ⟨false, "usage limits exceeded"⟩ "x").2.1 rfl,
   (apiRespConverter_spec ⟨true, ""⟩ "x").2.2 rfl⟩

/-- C4: a request with a non-empty path whose extracted app identifier
and user key are both empty is denied with the missing-credentials
PermissionDenied status — never an Internal error — and no backend
call is made. -/
theorem missing_credentials_denied (ms : RegexMatcher) (authRep : AuthRepFn)
    (svcID : String) (request : InstanceMsg) (proxyConf : ProxyConfig)
    (hpath : request.action.path ≠ "")
    (hApp : (extractCredentials proxyConf request.subject).1 = "")
    (hUser : (extractCredentials proxyConf request.subject).2.2 = "") :
    isAuthorizedStaged ms svcID request proxyConf =
      AuthStage.earlyExit (withPermissionDenied unauthenticatedErr) ∧
    isAuthorized ms authRep svcID request proxyConf =
      withPermissionDenied unauthenticatedErr ∧
    isAuthorizedEvents ms svcID request proxyConf = [] := by
  have h1 : isAuthorizedStaged ms svcID request proxyConf =
      AuthStage.earlyExit (withPermissionDenied unauthenticatedErr) := by
    unfold isAuthorizedStaged
    dsimp only
    rw [if_neg hpath, if_pos ⟨hApp, hUser⟩]
  refine ⟨h1, ?_, ?_⟩
  · unfold isAuthorized
    rw [h1]
  · unfold isAuthorizedEvents
    rw [h1]

/-- Witness for C4: a subject with no properties and empty user on a
non-empty path. -/
theorem missing_credentials_denied_witness :
    isAuthorized eqMatcher okAuthRep "svc" ⟨some emptySubject, getWidgets⟩ sampleConf =
      withPermissionDenied unauthenticatedErr ∧
    isAuthorizedEvents eqMatcher "svc" ⟨some emptySubject, getWidgets⟩ sampleConf = [] :=
  ⟨(missing_credentials_denied eqMatcher okAuthRep "svc"
      ⟨some emptySubject, getWidgets⟩ sampleConf (by decide) (by decide) (by decide)).2.1,
   (missing_credentials_denied eqMatcher okAuthRep "svc"
      ⟨some emptySubject, getWidgets⟩ sampleConf (by decide) (by decide) (by decide)).2.2⟩

/-- C5: an authenticated request matching no mapping rule is denied
with a reason containing the request method and path, and the backend
AuthRep call is not made. -/
theorem no_matching_rule_denied (ms : RegexMatcher) (authRep : AuthRepFn)
    (svcID : String) (request : InstanceMsg) (proxyConf : ProxyConfig)
    (hpath : request.action.path ≠ "")
    (hcred : ¬((extractCredentials proxyConf request.subject).1 = "" ∧
               (extractCredentials proxyConf request.subject).2.2 = ""))
    (hmetrics : generateMetrics ms request.action.path request.action.method proxyConf = []) :
    isAuthorizedStaged ms svcID request proxyConf =
      AuthStage.earlyExit (withPermissionDenied
        ("no matching mapping rule for request with method "
          ++ request.action.method ++ " and path " ++ request.action.path)) ∧
    (∃ a b, "no matching mapping rule for request with method "
          ++ request.action.method ++ " and path " ++ request.action.path
        = a ++ request.action.method ++ b ++ request.action.path) ∧
    isAuthorized ms authRep svcID request proxyConf =
      withPermissionDenied ("no matching mapping rule for request with method "
        ++ request.action.method ++ " and path " ++ request.action.path) ∧
    isAuthorizedEvents ms svcID request proxyConf = [] := by
  have h1 : isAuthorizedStaged ms svcID request proxyConf =
      AuthStage.earlyExit (withPermissionDenied
        ("no matching mapping rule for request with method "
          ++ request.action.method ++ " and path " ++ request.action.path)) := by
    unfold isAuthorizedStaged
    dsimp only
    rw [if_neg hpath, if_neg hcred, hmetrics]
    rfl
  refine ⟨h1, ⟨"no matching mapping rule for request with method ", " and path ", rfl⟩, ?_, ?_⟩
  · unfold isAuthorized
    rw [h1]
  · unfold isAuthorizedEvents
    rw [h1]

/-- Witness for C5: a POST to /v1/widgets against rules that only match
GET — denied with the method and path in the reason, no backend event. -/
theorem no_matching_rule_denied_witness :
    isAuthorized eqMatcher okAuthRep "svc" ⟨some appIDSubject, postWidgets⟩ sampleConf =
      withPermissionDenied ("no matching mapping rule for request with method "
        ++ "POST" ++ " and path " ++ "/v1/widgets") ∧
    isAuthorizedEvents eqMatcher "svc" ⟨some appIDSubject, postWidgets⟩ sampleConf = [] :=
  ⟨(no_matching_rule_denied eqMatcher okAuthRep "svc"
      ⟨some appIDSubject, postWidgets⟩ sampleConf (by decide) (by decide) (by decide)).2.2.1,
   (no_matching_rule_denied eqMatcher okAuthRep "svc"
      ⟨some appIDSubject, postWidgets⟩ sampleConf (by decide) (by decide) (by decide)).2.2.2⟩

/-- C10: with a nil subject and a non-empty path, evaluation is total:
all three credentials are the empty string and the result is the
missing-credentials PermissionDenied status, not an internal error. -/
theorem nil_subject_total (ms : RegexMatcher) (authRep : AuthRepFn)
    (svcID : String) (request : InstanceMsg) (proxyConf : ProxyConfig)
    (hsub : request.subject = none) (hpath : request.action.path ≠ "") :
    extractCredentials proxyConf request.subject = ("", "", "") ∧
    isAuthorizedStaged ms svcID request proxyConf =
      AuthStage.earlyExit (withPermissionDenied unauthenticatedErr) ∧
    isAuthorized ms authRep svcID request proxyConf =
      withPermissionDenied unauthenticatedErr := by
  have hc : extractCredentials proxyConf request.subject = ("", "", "") := by
    rw [hsub]
    rfl
  have h1 : isAuthorizedStaged ms svcID request proxyConf =
      AuthStage.earlyExit (withPermissionDenied unauthenticatedErr) := by
    unfold isAuthorizedStaged
    dsimp only
    rw [if_neg hpath, if_pos ⟨by rw [hc], by rw [hc]⟩]
  refine ⟨hc, h1, ?_⟩
  unfold isAuthorized
  rw [h1]

/-- Witness for C10: a concrete subjectless request. -/
theorem nil_subject_total_witness :
    extractCredentials sampleConf (none : Option SubjectMsg) = ("", "", "") ∧
    isAuthorized eqMatcher okAuthRep "svc" ⟨none, getWidgets⟩ sampleConf =
      withPermissionDenied unauthenticatedErr :=
  ⟨(nil_subject_total eqMatcher okAuthRep "svc" ⟨none, getWidgets⟩ sampleConf
      rfl (by decide)).1,
   (nil_subject_total eqMatcher okAuthRep "svc" ⟨none, getWidgets⟩ sampleConf
      rfl (by decide)).2.2⟩

/-! ## Handler lemmas -/

theorem rpcStatusErrorHandler_code (c : StatusCode) (m : String)
    (fn : String → RpcStatus) (err : Option String)
    (hfn : ∀ s, (fn s).code = c) :
    ((rpcStatusErrorHandler m fn err).1).code = c := by
  unfold rpcStatusErrorHandler
  split <;> exact hfn _

theorem handleResolved_ok (env : HandlerEnv) (r : HandleAuthorizationRequest)
    (cfg : Params)
    (h : (handleResolved env r cfg).1.status.code = StatusCode.ok) :
    (handleResolved env r cfg).1.validDurationSeconds = 0 ∧
    (handleResolved env r cfg).1.validUseCount = -1 := by
  revert h
  unfold handleResolved
  dsimp only
  split
  · intro h
    rw [rpcStatusErrorHandler_code StatusCode.invalidArgument _ _ _ (fun _ => rfl)] at h
    exact absurd h (by decide)
  · split
    · intro h
      rw [rpcStatusErrorHandler_code StatusCode.unavailable _ _ _ (fun _ => rfl)] at h
      exact absurd h (by decide)
    · split
      · intro h
        rw [rpcStatusErrorHandler_code StatusCode.invalidArgument _ _ _ (fun _ => rfl)] at h
        exact absurd h (by decide)
      · intro _
        exact ⟨rfl, rfl⟩

theorem handleResolved_hints (env : HandlerEnv) (r : HandleAuthorizationRequest)
    (cfg : Params) :
    (handleResolved env r cfg).1.validDurationSeconds = 0 ∧
    ((handleResolved env r cfg).1.validUseCount = -1 ∨
      (handleResolved env r cfg).1.validUseCount = 0) := by
  unfold handleResolved
  dsimp only
  split
  · exact ⟨rfl, Or.inr rfl⟩
  · split
    · exact ⟨rfl, Or.inr rfl⟩
    · split
      · exact ⟨rfl, Or.inr rfl⟩
      · exact ⟨rfl, Or.inl rfl⟩

theorem fetch_notin_isAuthorizedEvents (ms : RegexMatcher) (svcID : String)
    (request : InstanceMsg) (proxyConf : ProxyConfig) (p : Params) :
    Event.fetchProxyConf p ∉ isAuthorizedEvents ms svcID request proxyConf := by
  unfold isAuthorizedEvents
  split <;> simp

theorem handleResolved_fetch_event (env : HandlerEnv)
    (r : HandleAuthorizationRequest) (cfg p : Params)
    (h : Event.fetchProxyConf p ∈ (handleResolved env r cfg).2) : p = cfg := by
  revert h
  unfold handleResolved
  dsimp only
  split
  · intro h
    simp at h
  · split
    · intro h
      simp at h
      exact h
    · split
      · intro h
        simp at h
        exact h
      · intro h
        rcases List.mem_append.mp h with h1 | h1
        · simp at h1
          exact h1
        · exact absurd h1 (fetch_notin_isAuthorizedEvents _ _ _ _ _)

/-- C7: whenever the pipeline runs to the backend-decision stage — in
particular whenever the returned status is OK, which only that stage can
produce — the check result carries validity duration 0 and validity use
count -1, disabling decision caching. -/
theorem ok_outcome_disables_caching (env : HandlerEnv)
    (r : HandleAuthorizationRequest)
    (h : (handleAuthorization env r).1.status.code = StatusCode.ok) :
    (handleAuthorization env r).1.validDurationSeconds = 0 ∧
    (handleAuthorization env r).1.validUseCount = -1 := by
  revert h
  unfold handleAuthorization
  split
  · intro h
    rw [rpcStatusErrorHandler_code StatusCode.internal _ _ _ (fun _ => rfl)] at h
    exact absurd h (by decide)
  · split
    · split
      · intro h
        rw [rpcStatusErrorHandler_code StatusCode.invalidArgument _ _ _ (fun _ => rfl)] at h
        exact absurd h (by decide)
      · exact handleResolved_ok env r _
    · exact handleResolved_ok env r _

/-- Witness for C7: the happy-path request yields OK and the 0 / -1
validity hints. -/
theorem ok_outcome_disables_caching_witness :
    (handleAuthorization sampleEnv okReq).1.validDurationSeconds = 0 ∧
    (handleAuthorization sampleEnv okReq).1.validUseCount = -1 :=
  ok_outcome_disables_caching sampleEnv okReq (by decide)

/-- C8 counterexample: a request failing at config parsing (nil adapter
config) returns validity use count 0 — not a negative value as the
claim requires of every request. -/
theorem early_failure_cache_hint_counterexample :
    (handleAuthorization sampleEnv nilConfigReq).1.validUseCount = 0 ∧
    ¬((handleAuthorization sampleEnv nilConfigReq).1.validUseCount < 0) := by
  decide

/-- C8 amended: every check result carries validity duration 0, and a
validity use count that is -1 on the paths reaching the backend-decision
stage and 0 (the Go zero value, not negative) on requests failing at
config parsing, service-id resolution, client construction, or
proxy-configuration fetch. -/
theorem cache_hints_never_positive (env : HandlerEnv)
    (r : HandleAuthorizationRequest) :
    (handleAuthorization env r).1.validDurationSeconds = 0 ∧
    ((handleAuthorization env r).1.validUseCount = -1 ∨
      (handleAuthorization env r).1.validUseCount = 0) := by
  unfold handleAuthorization
  split
  · exact ⟨rfl, Or.inr rfl⟩
  · split
    · split
      · exact ⟨rfl, Or.inr rfl⟩
      · exact handleResolved_hints env r _
    · exact handleResolved_hints env r _

/-- C9: an empty service id in the adapter config is replaced by the
request action's service (observed in the proxy-configuration fetch);
empty in both yields InvalidArgument with an empty collaborator trace —
before any client build, configuration fetch or backend call. -/
theorem service_id_resolution (env : HandlerEnv)
    (r : HandleAuthorizationRequest) (cfg : Params)
    (hparse : r.adapterConfig = some (Except.ok cfg)) :
    ((cfg.serviceId = "" ∧ r.inst.action.service = "") →
      handleAuthorization env r =
        (⟨withInvalidArgument "error. No Service ID provided ", 0, 0⟩, [])) ∧
    (∀ p, Event.fetchProxyConf p ∈ (handleAuthorization env r).2 →
      p.serviceId =
        (if cfg.serviceId = "" then r.inst.action.service else cfg.serviceId)) := by
  have hp : parseConfigParams r.adapterConfig = Except.ok cfg := by
    rw [hparse]
    rfl
  constructor
  · rintro ⟨h1, h2⟩
    unfold handleAuthorization
    rw [hp]
    dsimp only
    rw [if_pos h1, if_pos h2]
    rfl
  · intro p hmem
    unfold handleAuthorization at hmem
    rw [hp] at hmem
    dsimp only at hmem
    by_cases h1 : cfg.serviceId = ""
    · rw [if_pos h1] at hmem ⊢
      by_cases h2 : r.inst.action.service = ""
      · rw [if_pos h2] at hmem
        simp at hmem
      · rw [if_neg h2] at hmem
        have := handleResolved_fetch_event env r _ p hmem
        rw [this]
    · rw [if_neg h1] at hmem ⊢
      exact congrArg Params.serviceId (handleResolved_fetch_event env r cfg p hmem)

/-- Witness for C9: with the service id empty in both places the result
is the InvalidArgument status with no collaborator events; with the id
supplied only by the request, the fetched configuration carries it. -/
theorem service_id_resolution_witness :
    (handleAuthorization sampleEnv noServiceReq =
      (⟨withInvalidArgument "error. No Service ID provided ", 0, 0⟩, [])) ∧
    resolvedParams.serviceId =
      (if emptyServiceParams.serviceId = "" then requestServiceReq.inst.action.service
       else emptyServiceParams.serviceId) :=
  ⟨(service_id_resolution sampleEnv noServiceReq emptyServiceParams rfl).1
      ⟨rfl, rfl⟩,
   (service_id_resolution sampleEnv requestServiceReq emptyServiceParams rfl).2
      resolvedParams (by decide)⟩

end Threescale
